import Mathlib

/-!
Formal model of the municipal places data-collection module (soporte.py).

The module geocodes municipality names, queries the Foursquare places API
once per (municipality, category) pair, flattens the nested JSON records
into tabular rows, and concatenates all batches into one final table.

Modelling conventions:
* a pandas DataFrame is a list of rows; a cell that is NaN or whose key was
  absent in the source JSON is `Option.none`;
* a raised Python exception is `Option.none` at the point where the source
  would raise; a bare `try/except: pass` becomes a total function returning
  the state the frame had reached when the failing statement was entered;
* the HTTP layer and the geocoding provider are oracle functions passed in
  explicitly, and the functions additionally return the trace of the calls
  they issued, so that call-count and call-argument properties are statable;
* floats are modelled as `Rat` (they are only copied, never computed with).
-/

/-- One entry of a place record's `categories` list.  A key that is absent
in the source JSON is `none`. -/
structure CatEntry where
  id : Option Int
  name : Option String
  deriving DecidableEq, Repr

/-- The `location` object of a place record. -/
structure LocationObj where
  formatted_address : Option String
  deriving DecidableEq, Repr

/-- The `main` sub-object of a place record's `geocodes` object. -/
structure MainGeo where
  latitude : Option Rat
  longitude : Option Rat
  deriving DecidableEq, Repr

/-- The `geocodes` object of a place record. -/
structure GeoObj where
  main : Option MainGeo
  deriving DecidableEq, Repr

/-- A raw place record as returned in the API response's `results` array.
`fsq_id`, `name` and `distance` are the requested pass-through fields; the
three nested fields may be absent (NaN cell in the frame built from the
response), which is `none`. -/
structure RawPlaceRecord where
  fsq_id : String
  name : String
  distance : Int
  categories : Option (List CatEntry)
  location : Option LocationObj
  geocodes : Option GeoObj
  deriving DecidableEq, Repr

/-- A row of the working DataFrame: the raw columns plus the columns the
normalizer may add.  A derived column that has not been assigned is `none`;
a nested column that was dropped is `none` in every row. -/
structure Row where
  fsq_id : String
  name : String
  distance : Int
  categories : Option (List CatEntry)
  location : Option LocationObj
  geocodes : Option GeoObj
  municipio : Option String
  id_categoria : Option Int
  categoria : Option String
  direccion : Option String
  latitud : Option Rat
  longitud : Option Rat
  deriving DecidableEq, Repr

/-- `pd.DataFrame(resultado.results)`: a raw record becomes a row whose
derived columns do not exist yet. -/
def RawPlaceRecord.toRow (r : RawPlaceRecord) : Row :=
  { fsq_id := r.fsq_id, name := r.name, distance := r.distance,
    categories := r.categories, location := r.location, geocodes := r.geocodes,
    municipio := none, id_categoria := none, categoria := none,
    direccion := none, latitud := none, longitud := none }

/-- soporte.extract_values_categoria: reads index 0 of the category list and
its id and name keys; any missing piece raises, i.e. returns `none`. -/
def extract_values_categoria (dictionary : List CatEntry) : Option (Int × String) :=
  match dictionary with
  | [] => none
  | d :: _ =>
    match d.id, d.name with
    | some id_categoria, some categoria => some (id_categoria, categoria)
    | _, _ => none

/-- soporte.extract_values_datos: reads the formatted_address key. -/
def extract_values_datos (dictionary : LocationObj) : Option String :=
  dictionary.formatted_address

/-- soporte.extract_values_position: reads main, then latitude and longitude. -/
def extract_values_position (dictionary : GeoObj) : Option (Rat × Rat) :=
  match dictionary.main with
  | none => none
  | some main =>
    match main.latitude, main.longitude with
    | some latitude, some longitude => some (latitude, longitude)
    | _, _ => none

/-- Applying `extract_values_categoria` to one cell of the `categories`
column; a NaN cell (absent key) raises, i.e. is `none`. -/
def cat_cell (r : Row) : Option (Int × String) :=
  r.categories.bind extract_values_categoria

/-- Applying `extract_values_datos` to one cell of the `location` column. -/
def dir_cell (r : Row) : Option String :=
  r.location.bind extract_values_datos

/-- Applying `extract_values_position` to one cell of the `geocodes` column. -/
def pos_cell (r : Row) : Option (Rat × Rat) :=
  r.geocodes.bind extract_values_position

/-- `Series.apply` over a whole column: succeeds with the list of results
when every cell succeeds, raises (is `none`) as soon as one cell raises. -/
def traverseOpt (f : α → Option β) : List α → Option (List β)
  | [] => some []
  | a :: as =>
    match f a, traverseOpt f as with
    | some b, some bs => some (b :: bs)
    | _, _ => none

/-- The two statements before the try block: assign the scalar `municipio`
to a (fresh) municipio column of every row. -/
def set_municipio (municipio : String) (df : List Row) : List Row :=
  df.map (fun r => { r with municipio := some municipio })

/-- Column assignment of the categories extraction result. -/
def assign_cat (df : List Row) (cats : List (Int × String)) : List Row :=
  List.zipWith
    (fun r p => { r with id_categoria := some p.1, categoria := some p.2 })
    df cats

/-- Column assignment of the address extraction result. -/
def assign_dir (df : List Row) (dirs : List String) : List Row :=
  List.zipWith (fun r d => { r with direccion := some d }) df dirs

/-- Column assignment of the position extraction result. -/
def assign_pos (df : List Row) (ps : List (Rat × Rat)) : List Row :=
  List.zipWith
    (fun r p => { r with latitud := some p.1, longitud := some p.2 })
    df ps

/-- `df.drop(['categories', 'location', 'geocodes'], axis=1)`. -/
def drop_nested (df : List Row) : List Row :=
  df.map (fun r => { r with categories := none, location := none, geocodes := none })

/-- soporte.extract_data_df: sets the municipio column, then runs the three
extraction statements and the column drop inside `try/except: pass`: the
function returns the frame in the state it had reached when the first
failing statement was entered, and the fully extracted frame when every
statement succeeds. -/
def extract_data_df (df : List Row) (municipio : String) : List Row :=
  let df0 := set_municipio municipio df
  match traverseOpt cat_cell df0 with
  | none => df0
  | some cats =>
    let df1 := assign_cat df0 cats
    match traverseOpt dir_cell df1 with
    | none => df1
    | some dirs =>
      let df2 := assign_dir df1 dirs
      match traverseOpt pos_cell df2 with
      | none => df2
      | some ps => drop_nested (assign_pos df2 ps)

/-- One row of the coordinate table produced by `obtener_coordenadas`
(columns municipio, latitud, longitud). -/
structure Muni where
  municipio : String
  latitud : Rat
  longitud : Rat
  deriving DecidableEq, Repr

/-- soporte.obtener_coordenadas: one geocoding lookup per input name, in
order.  The provider is the oracle `geocode`; a name it does not match makes
`location.latitude` raise, which aborts the whole loop: no row is returned.
The first component is the trace of the lookups that were issued. -/
def obtener_coordenadas (datos_input : List String)
    (geocode : String → Option (Rat × Rat)) :
    List String × Option (List Muni) :=
  match datos_input with
  | [] => ([], some [])
  | i :: rest =>
    match geocode i with
    | none => ([i], none)
    | some loc =>
      let res := obtener_coordenadas rest geocode
      (i :: res.1, res.2.map (fun l => ⟨i, loc.1, loc.2⟩ :: l))

/-- The single bounded place-search request built by `get_data_places`
(the query string of the URL plus the Authorization header). -/
structure Request where
  ll_lat : Rat
  ll_lon : Rat
  radius : Int
  categories : Int
  fields : List String
  sort : String
  limit : Nat
  auth : String
  deriving DecidableEq, Repr

/-- The request the URL f-string of `get_data_places` encodes: origin
`ll = latitud,longitud`, the given radius and single category code, the
six fixed fields, sort DISTANCE, limit 50, and the caller's token. -/
def build_request (categorias : Int) (distancia : Int) (latitud longitud : Rat)
    (token : String) : Request :=
  { ll_lat := latitud, ll_lon := longitud, radius := distancia,
    categories := categorias,
    fields := ["fsq_id", "name", "location", "categories", "distance", "geocodes"],
    sort := "DISTANCE", limit := 50, auth := token }

/-- A parsed HTTP response: `results` is the response's results array, or
`none` when the body is not JSON or lacks the results key (in which case
`resultado['results']` raises). -/
structure Resp where
  results : Option (List RawPlaceRecord)
  deriving DecidableEq, Repr

/-- soporte.get_data_places: builds the one request, issues the one HTTP
call through the oracle `http`, turns the results array into a frame and
normalizes it.  The first component is the trace of issued HTTP requests; a
missing results array raises, i.e. yields `none` (no retry, no second
request). -/
def get_data_places (municipio : String) (categorias : Int) (distancia : Int)
    (latitud longitud : Rat) (token : String) (http : Request → Resp) :
    List Request × Option (List Row) :=
  let req := build_request categorias distancia latitud longitud token
  let resultado := http req
  match resultado.results with
  | none => ([req], none)
  | some results =>
    ([req], some (extract_data_df (results.map RawPlaceRecord.toRow) municipio))

/-- One invocation of the Place Search Client by the aggregation driver,
with the argument tuple it received. -/
structure Call where
  municipio : String
  categorias : Int
  distancia : Int
  latitud : Rat
  longitud : Rat
  deriving DecidableEq, Repr

/-- The fixed category list of `get_all_data`. -/
def categoria : List Int := [16032, 17114, 13065, 17043, 11006]

/-- The inner `for c in categoria` loop of `get_all_data`: one
`get_data_places` call per category, each batch prepended to the
accumulating frame by `pd.concat([df_temp, df_final])`.  A raising call
aborts the loop; the first component is the trace of the client calls that
were issued. -/
def inner_loop (e : Muni) (distancia : Int) (token : String)
    (http : Request → Resp) :
    List Int → List Row → List Call × Option (List Row)
  | [], df_final => ([], some df_final)
  | c :: cs, df_final =>
    let call : Call := ⟨e.municipio, c, distancia, e.latitud, e.longitud⟩
    match (get_data_places e.municipio c distancia e.latitud e.longitud token http).2 with
    | none => ([call], none)
    | some df_temp =>
      let res := inner_loop e distancia token http cs (df_temp ++ df_final)
      (call :: res.1, res.2)

/-- The outer `for e in lista_municip` loop of `get_all_data`. -/
def outer_loop (distancia : Int) (token : String) (http : Request → Resp) :
    List Muni → List Row → List Call × Option (List Row)
  | [], df_final => ([], some df_final)
  | e :: es, df_final =>
    let res := inner_loop e distancia token http categoria df_final
    match res.2 with
    | none => (res.1, none)
    | some df2 =>
      let rest := outer_loop distancia token http es df2
      (res.1 ++ rest.1, rest.2)

/-- soporte.get_all_data: iterates every municipality row of the coordinate
table and, inside it, every code of the fixed category list, with the fixed
radius 2000, starting from an empty frame.  The first component is the trace
of Place Search Client calls. -/
def get_all_data (df : List Muni) (token : String) (http : Request → Resp) :
    List Call × Option (List Row) :=
  outer_loop 2000 token http df []

/-- The normalized batch a successful (municipality, category) pair
contributes to the final table. -/
def batch_rows (http : Request → Resp) (token : String) (distancia : Int)
    (e : Muni) (c : Int) : List Row :=
  match (http (build_request c distancia e.latitud e.longitud token)).results with
  | none => []
  | some results => extract_data_df (results.map RawPlaceRecord.toRow) e.municipio

/-- A raw record that is well-formed in the sense of the specification: a
non-empty category list whose first element has id and name, a location
with formatted_address, and geocodes whose main has latitude and longitude. -/
def wf_record (r : RawPlaceRecord) : Bool :=
  (match r.categories with
   | some (c0 :: _) => c0.id.isSome && c0.name.isSome
   | _ => false) &&
  (match r.location with
   | some loc => loc.formatted_address.isSome
   | none => false) &&
  (match r.geocodes with
   | some g =>
     match g.main with
     | some mg => mg.latitude.isSome && mg.longitude.isSome
     | none => false
   | none => false)

/-- The six flattened fields the specification promises per input record:
the municipality, the id and name of the 0th category entry, the location's
formatted address, and the main geocode's latitude and longitude. -/
def claimed_fields (municipio : String) (r : RawPlaceRecord) :
    Option String × Option Int × Option String × Option String × Option Rat × Option Rat :=
  (some municipio,
   r.categories.bind (fun cs => cs.head?.bind (fun c0 => c0.id)),
   r.categories.bind (fun cs => cs.head?.bind (fun c0 => c0.name)),
   r.location.bind (fun loc => loc.formatted_address),
   r.geocodes.bind (fun g => g.main.bind (fun mg => mg.latitude)),
   r.geocodes.bind (fun g => g.main.bind (fun mg => mg.longitude)))

/-! Generic lemmas about `traverseOpt` and column assignments. -/

@[simp]
theorem traverseOpt_nil (f : α → Option β) : traverseOpt f [] = some [] := rfl

theorem traverseOpt_cons (f : α → Option β) (a : α) (as : List α) :
    traverseOpt f (a :: as) =
      (f a).bind (fun b => (traverseOpt f as).map (fun bs => b :: bs)) := by
  cases h : f a <;> cases h2 : traverseOpt f as <;> simp [traverseOpt, h, h2]

theorem traverseOpt_length (f : α → Option β) :
    ∀ (l : List α) (bs : List β), traverseOpt f l = some bs → bs.length = l.length := by
  intro l
  induction l with
  | nil => intro bs h; simp [traverseOpt] at h; simp [h.symm]
  | cons a as ih =>
    intro bs h
    rw [traverseOpt_cons] at h
    cases ha : f a with
    | none => rw [ha] at h; simp at h
    | some b =>
      rw [ha] at h
      cases has : traverseOpt f as with
      | none => rw [has] at h; simp at h
      | some bs2 =>
        rw [has] at h
        simp at h
        rw [← h]
        simp [ih bs2 has]

theorem traverseOpt_map (f : β → Option γ) (g : α → β) (l : List α) :
    traverseOpt f (l.map g) = traverseOpt (fun a => f (g a)) l := by
  induction l with
  | nil => rfl
  | cons a as ih => simp [traverseOpt_cons, ih]

theorem traverseOpt_congr (f g : α → Option β) (l : List α)
    (h : ∀ a ∈ l, f a = g a) : traverseOpt f l = traverseOpt g l := by
  induction l with
  | nil => rfl
  | cons a as ih =>
    rw [traverseOpt_cons, traverseOpt_cons, h a (by simp),
      ih (fun a ha => h a (by simp [ha]))]

theorem traverseOpt_zipWith_left (c : α → Option γ) (f : α → β → α)
    (h : ∀ a b, c (f a b) = c a) :
    ∀ (as : List α) (bs : List β), bs.length = as.length →
      traverseOpt c (List.zipWith f as bs) = traverseOpt c as := by
  intro as
  induction as with
  | nil => intro bs _; simp
  | cons a as ih =>
    intro bs hl
    cases bs with
    | nil => simp at hl
    | cons b bs =>
      simp only [List.zipWith, traverseOpt_cons, h a b]
      rw [ih bs (by simpa using hl)]

theorem traverseOpt_eq_none_of_mem (f : α → Option β) (l : List α) (a : α)
    (ha : a ∈ l) (hfa : f a = none) : traverseOpt f l = none := by
  induction l with
  | nil => simp at ha
  | cons x xs ih =>
    rw [traverseOpt_cons]
    rcases List.mem_cons.mp ha with h | h
    · rw [← h, hfa]; rfl
    · cases hx : f x
      · rfl
      · simp [ih h]

theorem traverseOpt_eq_some_map (f : α → Option β) (d : β) (l : List α)
    (h : ∀ a ∈ l, (f a).isSome) :
    traverseOpt f l = some (l.map (fun a => (f a).getD d)) := by
  induction l with
  | nil => rfl
  | cons a as ih =>
    have ha := h a (by simp)
    cases hfa : f a with
    | none => rw [hfa] at ha; simp at ha
    | some b =>
      rw [traverseOpt_cons, hfa, ih (fun x hx => h x (by simp [hx]))]
      simp [hfa]

theorem map_zipWith_left (π : α → δ) (f : α → β → α)
    (h : ∀ a b, π (f a b) = π a) :
    ∀ (as : List α) (bs : List β), bs.length = as.length →
      (List.zipWith f as bs).map π = as.map π := by
  intro as
  induction as with
  | nil => intro bs _; simp
  | cons a as ih =>
    intro bs hl
    cases bs with
    | nil => simp at hl
    | cons b bs => simp [List.zipWith, h a b, ih bs (by simpa using hl)]

theorem map_zipWith_right (π : α → δ) (σ : β → δ) (f : α → β → α)
    (h : ∀ a b, π (f a b) = σ b) :
    ∀ (as : List α) (bs : List β), bs.length = as.length →
      (List.zipWith f as bs).map π = bs.map σ := by
  intro as
  induction as with
  | nil => intro bs hl; cases bs with
    | nil => simp
    | cons b bs => simp at hl
  | cons a as ih =>
    intro bs hl
    cases bs with
    | nil => simp at hl
    | cons b bs => simp [List.zipWith, h a b, ih bs (by simpa using hl)]

theorem map_map_of (π : α → δ) (u : α → α) (h : ∀ a, π (u a) = π a)
    (l : List α) : (l.map u).map π = l.map π := by
  rw [List.map_map]
  exact List.map_congr_left (fun a _ => h a)

/-! Structural lemmas about `extract_data_df`. -/

theorem length_set_municipio (m : String) (df : List Row) :
    (set_municipio m df).length = df.length := by
  simp [set_municipio]

theorem length_assign_cat (df : List Row) (cats : List (Int × String))
    (h : cats.length = df.length) : (assign_cat df cats).length = df.length := by
  simp [assign_cat, h]

theorem length_assign_dir (df : List Row) (dirs : List String)
    (h : dirs.length = df.length) : (assign_dir df dirs).length = df.length := by
  simp [assign_dir, h]

theorem length_assign_pos (df : List Row) (ps : List (Rat × Rat))
    (h : ps.length = df.length) : (assign_pos df ps).length = df.length := by
  simp [assign_pos, h]

theorem length_drop_nested (df : List Row) :
    (drop_nested df).length = df.length := by
  simp [drop_nested]

theorem trav_cat_set_municipio (m : String) (df : List Row) :
    traverseOpt cat_cell (set_municipio m df) = traverseOpt cat_cell df := by
  unfold set_municipio
  rw [traverseOpt_map]
  exact traverseOpt_congr _ _ df (fun a _ => rfl)

theorem trav_dir_set_municipio (m : String) (df : List Row) :
    traverseOpt dir_cell (set_municipio m df) = traverseOpt dir_cell df := by
  unfold set_municipio
  rw [traverseOpt_map]
  exact traverseOpt_congr _ _ df (fun a _ => rfl)

theorem trav_pos_set_municipio (m : String) (df : List Row) :
    traverseOpt pos_cell (set_municipio m df) = traverseOpt pos_cell df := by
  unfold set_municipio
  rw [traverseOpt_map]
  exact traverseOpt_congr _ _ df (fun a _ => rfl)

theorem trav_dir_assign_cat (df : List Row) (cats : List (Int × String))
    (h : cats.length = df.length) :
    traverseOpt dir_cell (assign_cat df cats) = traverseOpt dir_cell df := by
  unfold assign_cat
  exact traverseOpt_zipWith_left dir_cell
    (fun r p => { r with id_categoria := some p.1, categoria := some p.2 })
    (fun a b => rfl) df cats h

theorem trav_pos_assign_cat (df : List Row) (cats : List (Int × String))
    (h : cats.length = df.length) :
    traverseOpt pos_cell (assign_cat df cats) = traverseOpt pos_cell df := by
  unfold assign_cat
  exact traverseOpt_zipWith_left pos_cell
    (fun r p => { r with id_categoria := some p.1, categoria := some p.2 })
    (fun a b => rfl) df cats h

theorem trav_pos_assign_dir (df : List Row) (dirs : List String)
    (h : dirs.length = df.length) :
    traverseOpt pos_cell (assign_dir df dirs) = traverseOpt pos_cell df := by
  unfold assign_dir
  exact traverseOpt_zipWith_left pos_cell
    (fun r d => { r with direccion := some d })
    (fun a b => rfl) df dirs h

/-- The body of `extract_data_df` with every column-traversal rewritten to a
traversal of the input frame: each statement of the try block only reads the
nested columns, which no earlier assignment changes. -/
theorem extract_data_df_eq (df : List Row) (m : String) :
    extract_data_df df m =
      match traverseOpt cat_cell df with
      | none => set_municipio m df
      | some cats =>
        match traverseOpt dir_cell df with
        | none => assign_cat (set_municipio m df) cats
        | some dirs =>
          match traverseOpt pos_cell df with
          | none => assign_dir (assign_cat (set_municipio m df) cats) dirs
          | some ps =>
            drop_nested
              (assign_pos (assign_dir (assign_cat (set_municipio m df) cats) dirs) ps) := by
  unfold extract_data_df
  dsimp only
  rw [trav_cat_set_municipio]
  cases hc : traverseOpt cat_cell df with
  | none => rfl
  | some cats =>
    dsimp only
    have hcl : cats.length = (set_municipio m df).length := by
      rw [length_set_municipio]
      exact traverseOpt_length cat_cell df cats hc
    have h1 : traverseOpt dir_cell (assign_cat (set_municipio m df) cats) =
        traverseOpt dir_cell df := by
      rw [trav_dir_assign_cat _ _ hcl]
      exact trav_dir_set_municipio m df
    rw [h1]
    cases hd : traverseOpt dir_cell df with
    | none => rfl
    | some dirs =>
      dsimp only
      have hdl : dirs.length = (assign_cat (set_municipio m df) cats).length := by
        rw [length_assign_cat _ _ hcl, length_set_municipio]
        exact traverseOpt_length dir_cell df dirs hd
      have h2 : traverseOpt pos_cell
          (assign_dir (assign_cat (set_municipio m df) cats) dirs) =
          traverseOpt pos_cell df := by
        rw [trav_pos_assign_dir _ _ hdl]
        rw [trav_pos_assign_cat _ _ hcl]
        exact trav_pos_set_municipio m df
      rw [h2]

theorem map_set_municipio_other (m : String) (π : Row → δ)
    (h : ∀ r, π { r with municipio := some m } = π r) (df : List Row) :
    (set_municipio m df).map π = df.map π := by
  unfold set_municipio
  exact map_map_of π _ h df

theorem map_set_municipio_self (m : String) (df : List Row) :
    (set_municipio m df).map (fun r => r.municipio) =
      df.map (fun _ => some m) :=
  (List.map_map _ _ _).trans rfl

theorem map_assign_cat_other (π : Row → δ)
    (h : ∀ r (p : Int × String),
      π { r with id_categoria := some p.1, categoria := some p.2 } = π r)
    (df : List Row) (cats : List (Int × String)) (hl : cats.length = df.length) :
    (assign_cat df cats).map π = df.map π := by
  unfold assign_cat
  exact map_zipWith_left π _ h df cats hl

theorem map_assign_cat_self (df : List Row) (cats : List (Int × String))
    (hl : cats.length = df.length) :
    (assign_cat df cats).map (fun r => (r.id_categoria, r.categoria)) =
      cats.map (fun p => (some p.1, some p.2)) := by
  unfold assign_cat
  refine map_zipWith_right _ _ _ ?_ df cats hl
  intro a b
  rfl

theorem map_assign_dir_other (π : Row → δ)
    (h : ∀ r (d : String), π { r with direccion := some d } = π r)
    (df : List Row) (dirs : List String) (hl : dirs.length = df.length) :
    (assign_dir df dirs).map π = df.map π := by
  unfold assign_dir
  exact map_zipWith_left π _ h df dirs hl

theorem map_assign_dir_self (df : List Row) (dirs : List String)
    (hl : dirs.length = df.length) :
    (assign_dir df dirs).map (fun r => r.direccion) =
      dirs.map (fun d => some d) := by
  unfold assign_dir
  refine map_zipWith_right _ _ _ ?_ df dirs hl
  intro a b
  rfl

theorem map_assign_pos_other (π : Row → δ)
    (h : ∀ r (p : Rat × Rat),
      π { r with latitud := some p.1, longitud := some p.2 } = π r)
    (df : List Row) (ps : List (Rat × Rat)) (hl : ps.length = df.length) :
    (assign_pos df ps).map π = df.map π := by
  unfold assign_pos
  exact map_zipWith_left π _ h df ps hl

theorem map_assign_pos_self (df : List Row) (ps : List (Rat × Rat))
    (hl : ps.length = df.length) :
    (assign_pos df ps).map (fun r => (r.latitud, r.longitud)) =
      ps.map (fun p => (some p.1, some p.2)) := by
  unfold assign_pos
  refine map_zipWith_right _ _ _ ?_ df ps hl
  intro a b
  rfl

theorem map_drop_nested_other (π : Row → δ)
    (h : ∀ r, π { r with categories := none, location := none, geocodes := none } = π r)
    (df : List Row) : (drop_nested df).map π = df.map π :=
  map_map_of π
    (fun r => { r with categories := none, location := none, geocodes := none })
    h df

theorem stages_map (m : String) (f1 : Row → Int × String) (f2 : Row → String)
    (f3 : Row → Rat × Rat) (df : List Row) :
    drop_nested
      (assign_pos
        (assign_dir (assign_cat (set_municipio m df) (df.map f1)) (df.map f2))
        (df.map f3)) =
    df.map (fun r =>
      { r with municipio := some m,
               id_categoria := some (f1 r).1, categoria := some (f1 r).2,
               direccion := some (f2 r),
               latitud := some (f3 r).1, longitud := some (f3 r).2,
               categories := none, location := none, geocodes := none }) := by
  induction df with
  | nil => rfl
  | cons a as ih =>
    simp only [set_municipio, assign_cat, assign_dir, assign_pos, drop_nested,
      List.map, List.zipWith] at ih ⊢
    rw [ih]

/-- When every row of the frame extracts successfully, `extract_data_df` is
one row-wise update: municipio set, the five derived columns filled from the
three extractors, and the three nested columns dropped. -/
theorem extract_data_df_success (df : List Row) (m : String)
    (h : ∀ r ∈ df, (cat_cell r).isSome ∧ (dir_cell r).isSome ∧ (pos_cell r).isSome) :
    extract_data_df df m = df.map (fun r =>
      { r with municipio := some m,
               id_categoria := some ((cat_cell r).getD (0, "")).1,
               categoria := some ((cat_cell r).getD (0, "")).2,
               direccion := some ((dir_cell r).getD ""),
               latitud := some ((pos_cell r).getD (0, 0)).1,
               longitud := some ((pos_cell r).getD (0, 0)).2,
               categories := none, location := none, geocodes := none }) := by
  have hc := traverseOpt_eq_some_map cat_cell ((0 : Int), "") df
    (fun a ha => (h a ha).1)
  have hd := traverseOpt_eq_some_map dir_cell "" df (fun a ha => (h a ha).2.1)
  have hp := traverseOpt_eq_some_map pos_cell ((0 : Rat), (0 : Rat)) df
    (fun a ha => (h a ha).2.2)
  rw [extract_data_df_eq, hc, hd, hp]
  exact stages_map m _ _ _ df

theorem extract_data_df_length (df : List Row) (m : String) :
    (extract_data_df df m).length = df.length := by
  rw [extract_data_df_eq]
  cases hc : traverseOpt cat_cell df with
  | none => exact length_set_municipio m df
  | some cats =>
    have hcl : cats.length = (set_municipio m df).length := by
      rw [length_set_municipio]; exact traverseOpt_length cat_cell df cats hc
    cases hd : traverseOpt dir_cell df with
    | none => rw [length_assign_cat _ _ hcl, length_set_municipio]
    | some dirs =>
      have hdl : dirs.length = (assign_cat (set_municipio m df) cats).length := by
        rw [length_assign_cat _ _ hcl, length_set_municipio]
        exact traverseOpt_length dir_cell df dirs hd
      cases hp : traverseOpt pos_cell df with
      | none =>
        rw [length_assign_dir _ _ hdl, length_assign_cat _ _ hcl, length_set_municipio]
      | some ps =>
        have hpl : ps.length =
            (assign_dir (assign_cat (set_municipio m df) cats) dirs).length := by
          rw [length_assign_dir _ _ hdl, length_assign_cat _ _ hcl, length_set_municipio]
          exact traverseOpt_length pos_cell df ps hp
        rw [length_drop_nested, length_assign_pos _ _ hpl, length_assign_dir _ _ hdl,
          length_assign_cat _ _ hcl, length_set_municipio]

/-! Claim C1. -/

/-- C1 is false as stated: in the batch below the single row has a
well-formed category list but a location without formatted_address, so the
category extraction statement completes and assigns id_categoria and
categoria before the address extraction raises; the returned row has some
derived columns but not all of them, contradicting the claimed all-or-nothing
behavior. -/
theorem C1_counterexample :
    ¬ (((extract_data_df
          [⟨"f2", "Bar", 50, some [⟨some 13065, some "Restaurant"⟩], some ⟨none⟩,
            some ⟨some ⟨some 40, some 3⟩⟩, none, none, none, none, none, none⟩]
          "getafe").all
          (fun r => r.id_categoria.isSome && r.categoria.isSome &&
            r.direccion.isSome && r.latitud.isSome && r.longitud.isSome) = true)
       ∨ ((extract_data_df
          [⟨"f2", "Bar", 50, some [⟨some 13065, some "Restaurant"⟩], some ⟨none⟩,
            some ⟨some ⟨some 40, some 3⟩⟩, none, none, none, none, none, none⟩]
          "getafe").all
          (fun r => r.id_categoria.isNone && r.categoria.isNone &&
            r.direccion.isNone && r.latitud.isNone && r.longitud.isNone) = true)) := by
  decide

/-- C1 (amended): in the lenient variant, a batch in which at least one row
fails an extraction is returned with the nested columns retained (never
dropped), latitud and longitud never added, and municipio set on every row;
the derived columns of the statements that completed before the first
failing statement are added: none of them when the category extraction fails
on some row, id_categoria and categoria (and, when the address extraction
also succeeded everywhere, direccion) otherwise. -/
theorem C1_failure_statement_granular (df : List Row) (m : String)
    (h : ∃ r ∈ df, cat_cell r = none ∨ dir_cell r = none ∨ pos_cell r = none) :
    (extract_data_df df m).map (fun r => (r.categories, r.location, r.geocodes)) =
      df.map (fun r => (r.categories, r.location, r.geocodes)) ∧
    (extract_data_df df m).map (fun r => (r.latitud, r.longitud)) =
      df.map (fun r => (r.latitud, r.longitud)) ∧
    (extract_data_df df m).map (fun r => r.municipio) = df.map (fun _ => some m) ∧
    (extract_data_df df m).map (fun r => (r.id_categoria, r.categoria)) =
      (match traverseOpt cat_cell df with
       | none => df.map (fun r => (r.id_categoria, r.categoria))
       | some cats => cats.map (fun p => (some p.1, some p.2))) ∧
    (extract_data_df df m).map (fun r => r.direccion) =
      (match traverseOpt cat_cell df, traverseOpt dir_cell df with
       | some _, some dirs => dirs.map (fun d => some d)
       | _, _ => df.map (fun r => r.direccion)) := by
  rw [extract_data_df_eq]
  cases hc : traverseOpt cat_cell df with
  | none =>
    dsimp only
    refine ⟨?_, ?_, ?_, ?_, ?_⟩
    · exact map_set_municipio_other m
        (fun r => (r.categories, r.location, r.geocodes)) (fun r => rfl) df
    · exact map_set_municipio_other m
        (fun r => (r.latitud, r.longitud)) (fun r => rfl) df
    · exact map_set_municipio_self m df
    · exact map_set_municipio_other m
        (fun r => (r.id_categoria, r.categoria)) (fun r => rfl) df
    · exact map_set_municipio_other m (fun r => r.direccion) (fun r => rfl) df
  | some cats =>
    have hcl0 : cats.length = (set_municipio m df).length := by
      rw [length_set_municipio]
      exact traverseOpt_length cat_cell df cats hc
    cases hd : traverseOpt dir_cell df with
    | none =>
      dsimp only
      refine ⟨?_, ?_, ?_, ?_, ?_⟩
      · rw [map_assign_cat_other
          (fun r => (r.categories, r.location, r.geocodes)) (fun r p => rfl)
          _ cats hcl0]
        exact map_set_municipio_other m
          (fun r => (r.categories, r.location, r.geocodes)) (fun r => rfl) df
      · rw [map_assign_cat_other
          (fun r => (r.latitud, r.longitud)) (fun r p => rfl) _ cats hcl0]
        exact map_set_municipio_other m
          (fun r => (r.latitud, r.longitud)) (fun r => rfl) df
      · rw [map_assign_cat_other (fun r => r.municipio) (fun r p => rfl)
          _ cats hcl0]
        exact map_set_municipio_self m df
      · exact map_assign_cat_self _ cats hcl0
      · rw [map_assign_cat_other (fun r => r.direccion) (fun r p => rfl)
          _ cats hcl0]
        exact map_set_municipio_other m (fun r => r.direccion) (fun r => rfl) df
    | some dirs =>
      have hdl1 : dirs.length = (assign_cat (set_municipio m df) cats).length := by
        rw [length_assign_cat _ _ hcl0, length_set_municipio]
        exact traverseOpt_length dir_cell df dirs hd
      cases hp : traverseOpt pos_cell df with
      | none =>
        dsimp only
        refine ⟨?_, ?_, ?_, ?_, ?_⟩
        · rw [map_assign_dir_other
            (fun r => (r.categories, r.location, r.geocodes)) (fun r d => rfl)
            _ dirs hdl1,
            map_assign_cat_other
            (fun r => (r.categories, r.location, r.geocodes)) (fun r p => rfl)
            _ cats hcl0]
          exact map_set_municipio_other m
            (fun r => (r.categories, r.location, r.geocodes)) (fun r => rfl) df
        · rw [map_assign_dir_other
            (fun r => (r.latitud, r.longitud)) (fun r d => rfl) _ dirs hdl1,
            map_assign_cat_other
            (fun r => (r.latitud, r.longitud)) (fun r p => rfl) _ cats hcl0]
          exact map_set_municipio_other m
            (fun r => (r.latitud, r.longitud)) (fun r => rfl) df
        · rw [map_assign_dir_other (fun r => r.municipio) (fun r d => rfl)
            _ dirs hdl1,
            map_assign_cat_other (fun r => r.municipio) (fun r p => rfl)
            _ cats hcl0]
          exact map_set_municipio_self m df
        · rw [map_assign_dir_other
            (fun r => (r.id_categoria, r.categoria)) (fun r d => rfl)
            _ dirs hdl1]
          exact map_assign_cat_self _ cats hcl0
        · exact map_assign_dir_self _ dirs hdl1
      | some ps =>
        exfalso
        obtain ⟨r, hr, hcase⟩ := h
        rcases hcase with h1 | h1 | h1
        · have h2 := traverseOpt_eq_none_of_mem cat_cell df r hr h1
          rw [hc] at h2
          exact Option.noConfusion h2
        · have h2 := traverseOpt_eq_none_of_mem dir_cell df r hr h1
          rw [hd] at h2
          exact Option.noConfusion h2
        · have h2 := traverseOpt_eq_none_of_mem pos_cell df r hr h1
          rw [hp] at h2
          exact Option.noConfusion h2

/-- C1 witness: the amended theorem applied to the one-row batch whose
location lacks formatted_address. -/
theorem C1_failure_statement_granular_witness :
    (extract_data_df
        [⟨"f2", "Bar", 50, some [⟨some 13065, some "Restaurant"⟩], some ⟨none⟩,
          some ⟨some ⟨some 40, some 3⟩⟩, none, none, none, none, none, none⟩]
        "getafe").map (fun r => (r.categories, r.location, r.geocodes)) =
      ([⟨"f2", "Bar", 50, some [⟨some 13065, some "Restaurant"⟩], some ⟨none⟩,
          some ⟨some ⟨some 40, some 3⟩⟩, none, none, none, none, none, none⟩] :
        List Row).map (fun r => (r.categories, r.location, r.geocodes)) ∧
    (extract_data_df
        [⟨"f2", "Bar", 50, some [⟨some 13065, some "Restaurant"⟩], some ⟨none⟩,
          some ⟨some ⟨some 40, some 3⟩⟩, none, none, none, none, none, none⟩]
        "getafe").map (fun r => (r.latitud, r.longitud)) =
      ([⟨"f2", "Bar", 50, some [⟨some 13065, some "Restaurant"⟩], some ⟨none⟩,
          some ⟨some ⟨some 40, some 3⟩⟩, none, none, none, none, none, none⟩] :
        List Row).map (fun r => (r.latitud, r.longitud)) ∧
    (extract_data_df
        [⟨"f2", "Bar", 50, some [⟨some 13065, some "Restaurant"⟩], some ⟨none⟩,
          some ⟨some ⟨some 40, some 3⟩⟩, none, none, none, none, none, none⟩]
        "getafe").map (fun r => r.municipio) =
      ([⟨"f2", "Bar", 50, some [⟨some 13065, some "Restaurant"⟩], some ⟨none⟩,
          some ⟨some ⟨some 40, some 3⟩⟩, none, none, none, none, none, none⟩] :
        List Row).map (fun _ => some "getafe") ∧
    (extract_data_df
        [⟨"f2", "Bar", 50, some [⟨some 13065, some "Restaurant"⟩], some ⟨none⟩,
          some ⟨some ⟨some 40, some 3⟩⟩, none, none, none, none, none, none⟩]
        "getafe").map (fun r => (r.id_categoria, r.categoria)) =
      (match traverseOpt cat_cell
          [⟨"f2", "Bar", 50, some [⟨some 13065, some "Restaurant"⟩], some ⟨none⟩,
            some ⟨some ⟨some 40, some 3⟩⟩, none, none, none, none, none, none⟩] with
       | none =>
         ([⟨"f2", "Bar", 50, some [⟨some 13065, some "Restaurant"⟩], some ⟨none⟩,
             some ⟨some ⟨some 40, some 3⟩⟩, none, none, none, none, none, none⟩] :
           List Row).map (fun r => (r.id_categoria, r.categoria))
       | some cats => cats.map (fun p => (some p.1, some p.2))) ∧
    (extract_data_df
        [⟨"f2", "Bar", 50, some [⟨some 13065, some "Restaurant"⟩], some ⟨none⟩,
          some ⟨some ⟨some 40, some 3⟩⟩, none, none, none, none, none, none⟩]
        "getafe").map (fun r => r.direccion) =
      (match traverseOpt cat_cell
          [⟨"f2", "Bar", 50, some [⟨some 13065, some "Restaurant"⟩], some ⟨none⟩,
            some ⟨some ⟨some 40, some 3⟩⟩, none, none, none, none, none, none⟩],
          traverseOpt dir_cell
          [⟨"f2", "Bar", 50, some [⟨some 13065, some "Restaurant"⟩], some ⟨none⟩,
            some ⟨some ⟨some 40, some 3⟩⟩, none, none, none, none, none, none⟩] with
       | some _, some dirs => dirs.map (fun d => some d)
       | _, _ =>
         ([⟨"f2", "Bar", 50, some [⟨some 13065, some "Restaurant"⟩], some ⟨none⟩,
             some ⟨some ⟨some 40, some 3⟩⟩, none, none, none, none, none, none⟩] :
           List Row).map (fun r => r.direccion)) :=
  C1_failure_statement_granular
    [⟨"f2", "Bar", 50, some [⟨some 13065, some "Restaurant"⟩], some ⟨none⟩,
      some ⟨some ⟨some 40, some 3⟩⟩, none, none, none, none, none, none⟩]
    "getafe" (by decide)

/-! Claim C2. -/

/-- For a record that is well-formed in the sense of the specification, the
three cell extractions of its row succeed, and the success-case update fills
the six flat fields with exactly the values the specification names. -/
theorem wf_record_cases (x : RawPlaceRecord) (hw : wf_record x = true) (m : String) :
    ((cat_cell x.toRow).isSome ∧ (dir_cell x.toRow).isSome ∧ (pos_cell x.toRow).isSome) ∧
    ((some m, some ((cat_cell x.toRow).getD (0, "")).1,
      some ((cat_cell x.toRow).getD (0, "")).2,
      some ((dir_cell x.toRow).getD ""),
      some ((pos_cell x.toRow).getD (0, 0)).1,
      some ((pos_cell x.toRow).getD (0, 0)).2) = claimed_fields m x) := by
  obtain ⟨fid, nm, dist, cats, loc, geo⟩ := x
  cases cats with
  | none => simp [wf_record] at hw
  | some cs =>
    cases cs with
    | nil => simp [wf_record] at hw
    | cons c0 rest =>
      obtain ⟨cid, cname⟩ := c0
      cases cid with
      | none => simp [wf_record] at hw
      | some i =>
        cases cname with
        | none => simp [wf_record] at hw
        | some n =>
          cases loc with
          | none => simp [wf_record] at hw
          | some l =>
            obtain ⟨fa⟩ := l
            cases fa with
            | none => simp [wf_record] at hw
            | some a =>
              cases geo with
              | none => simp [wf_record] at hw
              | some g =>
                obtain ⟨mg⟩ := g
                cases mg with
                | none => simp [wf_record] at hw
                | some mgv =>
                  obtain ⟨la, lo⟩ := mgv
                  cases la with
                  | none => simp [wf_record] at hw
                  | some lav =>
                    cases lo with
                    | none => simp [wf_record] at hw
                    | some lov =>
                      simp [cat_cell, dir_cell, pos_cell, RawPlaceRecord.toRow,
                        extract_values_categoria, extract_values_datos,
                        extract_values_position, claimed_fields]

/-- C2: for a batch in which every raw record is well-formed, the normalizer
yields exactly one flat row per input record, with municipio set to the given
municipality on every row and with id_categoria, categoria, direccion,
latitud and longitud equal to the id and name of the 0th category entry, the
location's formatted address, and the main geocode's latitude and longitude. -/
theorem C2_normalize_flat_rows (raws : List RawPlaceRecord) (m : String)
    (h : raws.all wf_record = true) :
    (extract_data_df (raws.map RawPlaceRecord.toRow) m).length = raws.length ∧
    (extract_data_df (raws.map RawPlaceRecord.toRow) m).map
        (fun r => (r.municipio, r.id_categoria, r.categoria, r.direccion,
          r.latitud, r.longitud)) =
      raws.map (claimed_fields m) := by
  have hwf : ∀ r ∈ raws.map RawPlaceRecord.toRow,
      (cat_cell r).isSome ∧ (dir_cell r).isSome ∧ (pos_cell r).isSome := by
    intro r hr
    obtain ⟨x, hx, rfl⟩ := List.mem_map.mp hr
    exact (wf_record_cases x (List.all_eq_true.mp h x hx) m).1
  constructor
  · rw [extract_data_df_length]
    simp
  · rw [extract_data_df_success _ m hwf, List.map_map, List.map_map]
    apply List.map_congr_left
    intro x hx
    exact (wf_record_cases x (List.all_eq_true.mp h x hx) m).2

/-- C2 witness: the theorem applied to a one-record well-formed batch. -/
theorem C2_normalize_flat_rows_witness :
    (extract_data_df
        (([⟨"f1", "Cafe", 120, some [⟨some 13065, some "Restaurant"⟩],
            some ⟨some "Calle 1"⟩, some ⟨some ⟨some 40, some 3⟩⟩⟩] :
          List RawPlaceRecord).map RawPlaceRecord.toRow) "getafe").length =
      ([⟨"f1", "Cafe", 120, some [⟨some 13065, some "Restaurant"⟩],
          some ⟨some "Calle 1"⟩, some ⟨some ⟨some 40, some 3⟩⟩⟩] :
        List RawPlaceRecord).length ∧
    (extract_data_df
        (([⟨"f1", "Cafe", 120, some [⟨some 13065, some "Restaurant"⟩],
            some ⟨some "Calle 1"⟩, some ⟨some ⟨some 40, some 3⟩⟩⟩] :
          List RawPlaceRecord).map RawPlaceRecord.toRow) "getafe").map
        (fun r => (r.municipio, r.id_categoria, r.categoria, r.direccion,
          r.latitud, r.longitud)) =
      ([⟨"f1", "Cafe", 120, some [⟨some 13065, some "Restaurant"⟩],
          some ⟨some "Calle 1"⟩, some ⟨some ⟨some 40, some 3⟩⟩⟩] :
        List RawPlaceRecord).map (claimed_fields "getafe") :=
  C2_normalize_flat_rows
    [⟨"f1", "Cafe", 120, some [⟨some 13065, some "Restaurant"⟩],
      some ⟨some "Calle 1"⟩, some ⟨some ⟨some 40, some 3⟩⟩⟩]
    "getafe" (by decide)

/-! Claim C7. -/

/-- C7: when every row of the batch extracts successfully, the output frame
has the three original nested columns dropped (no row carries categories,
location or geocodes any more) and every other original column (fsq_id,
name, distance) present and unchanged, with one output row per input row. -/
theorem C7_success_pass_through (df : List Row) (m : String)
    (h : ∀ r ∈ df, (cat_cell r).isSome ∧ (dir_cell r).isSome ∧ (pos_cell r).isSome) :
    (extract_data_df df m).map (fun r => (r.categories, r.location, r.geocodes)) =
      df.map (fun _ => ((none : Option (List CatEntry)),
        (none : Option LocationObj), (none : Option GeoObj))) ∧
    (extract_data_df df m).map (fun r => (r.fsq_id, r.name, r.distance)) =
      df.map (fun r => (r.fsq_id, r.name, r.distance)) ∧
    (extract_data_df df m).length = df.length := by
  refine ⟨?_, ?_, extract_data_df_length df m⟩
  · rw [extract_data_df_success _ m h, List.map_map]
    exact List.map_congr_left (fun a _ => rfl)
  · rw [extract_data_df_success _ m h, List.map_map]
    exact List.map_congr_left (fun a _ => rfl)

/-- C7 witness: the theorem applied to a one-row batch whose three nested
cells are all well-formed. -/
theorem C7_success_pass_through_witness :
    (extract_data_df
        [⟨"f1", "Cafe", 120, some [⟨some 13065, some "Restaurant"⟩],
          some ⟨some "Calle 1"⟩, some ⟨some ⟨some 40, some 3⟩⟩,
          none, none, none, none, none, none⟩]
        "getafe").map (fun r => (r.categories, r.location, r.geocodes)) =
      ([⟨"f1", "Cafe", 120, some [⟨some 13065, some "Restaurant"⟩],
          some ⟨some "Calle 1"⟩, some ⟨some ⟨some 40, some 3⟩⟩,
          none, none, none, none, none, none⟩] : List Row).map
        (fun _ => ((none : Option (List CatEntry)),
          (none : Option LocationObj), (none : Option GeoObj))) ∧
    (extract_data_df
        [⟨"f1", "Cafe", 120, some [⟨some 13065, some "Restaurant"⟩],
          some ⟨some "Calle 1"⟩, some ⟨some ⟨some 40, some 3⟩⟩,
          none, none, none, none, none, none⟩]
        "getafe").map (fun r => (r.fsq_id, r.name, r.distance)) =
      ([⟨"f1", "Cafe", 120, some [⟨some 13065, some "Restaurant"⟩],
          some ⟨some "Calle 1"⟩, some ⟨some ⟨some 40, some 3⟩⟩,
          none, none, none, none, none, none⟩] : List Row).map
        (fun r => (r.fsq_id, r.name, r.distance)) ∧
    (extract_data_df
        [⟨"f1", "Cafe", 120, some [⟨some 13065, some "Restaurant"⟩],
          some ⟨some "Calle 1"⟩, some ⟨some ⟨some 40, some 3⟩⟩,
          none, none, none, none, none, none⟩]
        "getafe").length =
      ([⟨"f1", "Cafe", 120, some [⟨some 13065, some "Restaurant"⟩],
          some ⟨some "Calle 1"⟩, some ⟨some ⟨some 40, some 3⟩⟩,
          none, none, none, none, none, none⟩] : List Row).length :=
  C7_success_pass_through
    [⟨"f1", "Cafe", 120, some [⟨some 13065, some "Restaurant"⟩],
      some ⟨some "Calle 1"⟩, some ⟨some ⟨some 40, some 3⟩⟩,
      none, none, none, none, none, none⟩]
    "getafe" (by decide)

/-! Claim C8. -/

/-- Whatever rows are malformed, the extraction step leaves municipio set on
every row and the untransformed columns unchanged. -/
theorem extract_data_df_frame_invariants (df : List Row) (m : String) :
    (extract_data_df df m).map (fun r => r.municipio) = df.map (fun _ => some m) ∧
    (extract_data_df df m).map (fun r => (r.fsq_id, r.name, r.distance)) =
      df.map (fun r => (r.fsq_id, r.name, r.distance)) := by
  rw [extract_data_df_eq]
  cases hc : traverseOpt cat_cell df with
  | none =>
    dsimp only
    exact ⟨map_set_municipio_self m df,
      map_set_municipio_other m (fun r => (r.fsq_id, r.name, r.distance))
        (fun r => rfl) df⟩
  | some cats =>
    have hcl0 : cats.length = (set_municipio m df).length := by
      rw [length_set_municipio]
      exact traverseOpt_length cat_cell df cats hc
    cases hd : traverseOpt dir_cell df with
    | none =>
      dsimp only
      constructor
      · rw [map_assign_cat_other (fun r => r.municipio) (fun r p => rfl) _ cats hcl0]
        exact map_set_municipio_self m df
      · rw [map_assign_cat_other (fun r => (r.fsq_id, r.name, r.distance))
          (fun r p => rfl) _ cats hcl0]
        exact map_set_municipio_other m (fun r => (r.fsq_id, r.name, r.distance))
          (fun r => rfl) df
    | some dirs =>
      have hdl1 : dirs.length = (assign_cat (set_municipio m df) cats).length := by
        rw [length_assign_cat _ _ hcl0, length_set_municipio]
        exact traverseOpt_length dir_cell df dirs hd
      cases hp : traverseOpt pos_cell df with
      | none =>
        dsimp only
        constructor
        · rw [map_assign_dir_other (fun r => r.municipio) (fun r d => rfl)
            _ dirs hdl1,
            map_assign_cat_other (fun r => r.municipio) (fun r p => rfl)
            _ cats hcl0]
          exact map_set_municipio_self m df
        · rw [map_assign_dir_other (fun r => (r.fsq_id, r.name, r.distance))
            (fun r d => rfl) _ dirs hdl1,
            map_assign_cat_other (fun r => (r.fsq_id, r.name, r.distance))
            (fun r p => rfl) _ cats hcl0]
          exact map_set_municipio_other m (fun r => (r.fsq_id, r.name, r.distance))
            (fun r => rfl) df
      | some ps =>
        have hpl : ps.length =
            (assign_dir (assign_cat (set_municipio m df) cats) dirs).length := by
          rw [length_assign_dir _ _ hdl1, length_assign_cat _ _ hcl0,
            length_set_municipio]
          exact traverseOpt_length pos_cell df ps hp
        dsimp only
        constructor
        · rw [map_drop_nested_other (fun r => r.municipio) (fun r => rfl) _,
            map_assign_pos_other (fun r => r.municipio) (fun r p => rfl) _ ps hpl,
            map_assign_dir_other (fun r => r.municipio) (fun r d => rfl)
            _ dirs hdl1,
            map_assign_cat_other (fun r => r.municipio) (fun r p => rfl)
            _ cats hcl0]
          exact map_set_municipio_self m df
        · rw [map_drop_nested_other (fun r => (r.fsq_id, r.name, r.distance))
            (fun r => rfl) _,
            map_assign_pos_other (fun r => (r.fsq_id, r.name, r.distance))
            (fun r p => rfl) _ ps hpl,
            map_assign_dir_other (fun r => (r.fsq_id, r.name, r.distance))
            (fun r d => rfl) _ dirs hdl1,
            map_assign_cat_other (fun r => (r.fsq_id, r.name, r.distance))
            (fun r p => rfl) _ cats hcl0]
          exact map_set_municipio_other m (fun r => (r.fsq_id, r.name, r.distance))
            (fun r => rfl) df

/-- C8: for every input frame and municipality, the extraction step of the
normalizer is total: whatever rows are malformed, it returns a frame (never
an error value) with one row per input row, municipio set on every row, and
the untransformed columns unchanged; the try/except swallows every
extraction failure. -/
theorem C8_extraction_never_raises (df : List Row) (m : String) :
    (extract_data_df df m).length = df.length ∧
    (extract_data_df df m).map (fun r => r.municipio) = df.map (fun _ => some m) ∧
    (extract_data_df df m).map (fun r => (r.fsq_id, r.name, r.distance)) =
      df.map (fun r => (r.fsq_id, r.name, r.distance)) :=
  ⟨extract_data_df_length df m, (extract_data_df_frame_invariants df m).1,
    (extract_data_df_frame_invariants df m).2⟩

/-! Claim C4. -/

/-- C4: every invocation of the Place Search Client builds exactly one
request — origin the given latitude and longitude, radius the given
distance, category filter the single given code, the six fixed requested
fields, nearest-first sort and a result cap of 50, carrying the given
token — and issues exactly one HTTP call (the trace is that one request),
with no pagination and no retry whatever the response is. -/
theorem C4_single_bounded_request (municipio : String) (categorias distancia : Int)
    (latitud longitud : Rat) (token : String) (http : Request → Resp) :
    (get_data_places municipio categorias distancia latitud longitud token http).1 =
      [{ ll_lat := latitud, ll_lon := longitud, radius := distancia,
         categories := categorias,
         fields := ["fsq_id", "name", "location", "categories", "distance", "geocodes"],
         sort := "DISTANCE", limit := 50, auth := token }] := by
  unfold get_data_places
  dsimp only
  cases (http (build_request categorias distancia latitud longitud token)).results <;> rfl

/-! Claim C5. -/

/-- C5: if the geocoding provider matches every name of `pre` but returns no
match for `bad`, then `obtener_coordenadas` on `pre ++ bad :: post` issues
lookups exactly for `pre ++ [bad]` — none of the remaining names is
processed — and returns no rows at all: the error is not recovered. -/
theorem C5_geocode_fail_fast (pre post : List String) (bad : String)
    (geocode : String → Option (Rat × Rat))
    (hpre : ∀ n ∈ pre, (geocode n).isSome) (hbad : geocode bad = none) :
    (obtener_coordenadas (pre ++ bad :: post) geocode).2 = none ∧
    (obtener_coordenadas (pre ++ bad :: post) geocode).1 = pre ++ [bad] := by
  induction pre with
  | nil => simp [obtener_coordenadas, hbad]
  | cons p ps ih =>
    have hp := hpre p (by simp)
    cases hgp : geocode p with
    | none => rw [hgp] at hp; simp at hp
    | some v =>
      have ihh := ih (fun n hn => hpre n (by simp [hn]))
      simp [obtener_coordenadas, hgp, ihh.1, ihh.2]

/-- C5 witness: the provider knows madrid but not zzz; the lookup trace stops
at zzz and no rows are returned. -/
theorem C5_geocode_fail_fast_witness :
    (obtener_coordenadas (["madrid"] ++ "zzz" :: ["alcala"])
      (fun n => if n = "madrid" then some (1, 2) else none)).2 = none ∧
    (obtener_coordenadas (["madrid"] ++ "zzz" :: ["alcala"])
      (fun n => if n = "madrid" then some (1, 2) else none)).1 =
      ["madrid"] ++ ["zzz"] :=
  C5_geocode_fail_fast ["madrid"] ["alcala"] "zzz"
    (fun n => if n = "madrid" then some (1, 2) else none)
    (by decide) (by decide)

/-! Claim C6. -/

theorem map_const_replicate (l : List α) (c : γ) :
    l.map (fun _ => c) = List.replicate l.length c := by
  induction l with
  | nil => rfl
  | cons a as ih => simp [ih, List.replicate_succ]

/-- C6: two independent single-pair searches with well-formed responses each
return the normalization of their own batch; concatenating the two tables
gives one table whose row count is the sum of the two batches' row counts
and in which the first block of rows carries the first search's municipality
and the second block the second's — no row is dropped or deduplicated. -/
theorem C6_concat_two_searches (mA mB : String) (cA cB dA dB : Int)
    (laA loA laB loB : Rat) (tokA tokB : String) (httpA httpB : Request → Resp)
    (rsA rsB : List RawPlaceRecord)
    (hA : (httpA (build_request cA dA laA loA tokA)).results = some rsA)
    (hB : (httpB (build_request cB dB laB loB tokB)).results = some rsB) :
    (get_data_places mA cA dA laA loA tokA httpA).2 =
      some (extract_data_df (rsA.map RawPlaceRecord.toRow) mA) ∧
    (get_data_places mB cB dB laB loB tokB httpB).2 =
      some (extract_data_df (rsB.map RawPlaceRecord.toRow) mB) ∧
    (extract_data_df (rsA.map RawPlaceRecord.toRow) mA ++
      extract_data_df (rsB.map RawPlaceRecord.toRow) mB).length =
      rsA.length + rsB.length ∧
    (extract_data_df (rsA.map RawPlaceRecord.toRow) mA ++
        extract_data_df (rsB.map RawPlaceRecord.toRow) mB).map
        (fun r => r.municipio) =
      List.replicate rsA.length (some mA) ++
        List.replicate rsB.length (some mB) := by
  refine ⟨?_, ?_, ?_, ?_⟩
  · unfold get_data_places
    dsimp only
    rw [hA]
  · unfold get_data_places
    dsimp only
    rw [hB]
  · rw [List.length_append, extract_data_df_length, extract_data_df_length]
    simp
  · rw [List.map_append,
      (extract_data_df_frame_invariants (rsA.map RawPlaceRecord.toRow) mA).1,
      (extract_data_df_frame_invariants (rsB.map RawPlaceRecord.toRow) mB).1,
      map_const_replicate, map_const_replicate]
    simp

/-- C6 witness: a one-record batch for getafe and an empty batch for parla. -/
theorem C6_concat_two_searches_witness :
    (get_data_places "getafe" 13065 2000 40 3 "tokA"
        (fun _ => ⟨some [⟨"f1", "Cafe", 120, some [⟨some 13065, some "Restaurant"⟩],
          some ⟨some "Calle 1"⟩, some ⟨some ⟨some 40, some 3⟩⟩⟩]⟩)).2 =
      some (extract_data_df
        (([⟨"f1", "Cafe", 120, some [⟨some 13065, some "Restaurant"⟩],
            some ⟨some "Calle 1"⟩, some ⟨some ⟨some 40, some 3⟩⟩⟩] :
          List RawPlaceRecord).map RawPlaceRecord.toRow) "getafe") ∧
    (get_data_places "parla" 16032 2000 41 4 "tokB"
        (fun _ => ⟨some []⟩)).2 =
      some (extract_data_df
        (([] : List RawPlaceRecord).map RawPlaceRecord.toRow) "parla") ∧
    (extract_data_df
        (([⟨"f1", "Cafe", 120, some [⟨some 13065, some "Restaurant"⟩],
            some ⟨some "Calle 1"⟩, some ⟨some ⟨some 40, some 3⟩⟩⟩] :
          List RawPlaceRecord).map RawPlaceRecord.toRow) "getafe" ++
      extract_data_df
        (([] : List RawPlaceRecord).map RawPlaceRecord.toRow) "parla").length =
      ([⟨"f1", "Cafe", 120, some [⟨some 13065, some "Restaurant"⟩],
          some ⟨some "Calle 1"⟩, some ⟨some ⟨some 40, some 3⟩⟩⟩] :
        List RawPlaceRecord).length + ([] : List RawPlaceRecord).length ∧
    (extract_data_df
        (([⟨"f1", "Cafe", 120, some [⟨some 13065, some "Restaurant"⟩],
            some ⟨some "Calle 1"⟩, some ⟨some ⟨some 40, some 3⟩⟩⟩] :
          List RawPlaceRecord).map RawPlaceRecord.toRow) "getafe" ++
        extract_data_df
        (([] : List RawPlaceRecord).map RawPlaceRecord.toRow) "parla").map
        (fun r => r.municipio) =
      List.replicate
        ([⟨"f1", "Cafe", 120, some [⟨some 13065, some "Restaurant"⟩],
            some ⟨some "Calle 1"⟩, some ⟨some ⟨some 40, some 3⟩⟩⟩] :
          List RawPlaceRecord).length (some "getafe") ++
        List.replicate ([] : List RawPlaceRecord).length (some "parla") :=
  C6_concat_two_searches "getafe" "parla" 13065 16032 2000 2000 40 3 41 4
    "tokA" "tokB"
    (fun _ => ⟨some [⟨"f1", "Cafe", 120, some [⟨some 13065, some "Restaurant"⟩],
      some ⟨some "Calle 1"⟩, some ⟨some ⟨some 40, some 3⟩⟩⟩]⟩)
    (fun _ => ⟨some []⟩)
    [⟨"f1", "Cafe", 120, some [⟨some 13065, some "Restaurant"⟩],
      some ⟨some "Calle 1"⟩, some ⟨some ⟨some 40, some 3⟩⟩⟩]
    [] rfl rfl

/-! Aggregation driver lemmas. -/

/-- Under an oracle whose every response carries a results array, one
iteration of the inner category loop appends its call to the trace and
prepends its normalized batch to the accumulating frame. -/
theorem inner_loop_success (e : Muni) (d : Int) (tok : String)
    (http : Request → Resp) (h : ∀ req, ((http req).results).isSome) :
    ∀ (cs : List Int) (acc : List Row),
      inner_loop e d tok http cs acc =
        (cs.map (fun c => (⟨e.municipio, c, d, e.latitud, e.longitud⟩ : Call)),
         some ((cs.map (batch_rows http tok d e)).reverse.flatten ++ acc)) := by
  intro cs
  induction cs with
  | nil =>
    intro acc
    simp [inner_loop]
  | cons c cs ih =>
    intro acc
    have hres : (get_data_places e.municipio c d e.latitud e.longitud tok http).2 =
        some (batch_rows http tok d e c) := by
      unfold get_data_places batch_rows
      dsimp only
      cases hr : (http (build_request c d e.latitud e.longitud tok)).results with
      | none =>
        have h2 := h (build_request c d e.latitud e.longitud tok)
        rw [hr] at h2
        simp at h2
      | some rs => rfl
    simp only [inner_loop, hres, ih (batch_rows http tok d e c ++ acc)]
    simp [List.flatten_append, List.append_assoc]

/-- Under the same oracle, the outer municipality loop produces the full
call trace in iteration order and the concatenation of all batches with the
later municipality blocks in front. -/
theorem outer_loop_success (d : Int) (tok : String) (http : Request → Resp)
    (h : ∀ req, ((http req).results).isSome) :
    ∀ (es : List Muni) (acc : List Row),
      outer_loop d tok http es acc =
        (es.flatMap (fun e => categoria.map
          (fun c => (⟨e.municipio, c, d, e.latitud, e.longitud⟩ : Call))),
         some ((es.flatMap (fun e => categoria.map (batch_rows http tok d e))).reverse.flatten
           ++ acc)) := by
  intro es
  induction es with
  | nil =>
    intro acc
    simp [outer_loop]
  | cons e es ih =>
    intro acc
    simp only [outer_loop, inner_loop_success e d tok http h categoria acc]
    simp only [ih ((categoria.map (batch_rows http tok d e)).reverse.flatten ++ acc)]
    simp [List.flatten_append, List.append_assoc]

/-! Claim C3. -/

theorem flatMap_categoria_length (l : List Muni) (d : Int) :
    (l.flatMap (fun e => categoria.map
      (fun c => (⟨e.municipio, c, d, e.latitud, e.longitud⟩ : Call)))).length =
      l.length * 5 := by
  induction l with
  | nil => rfl
  | cons a as ih =>
    rw [List.flatMap_cons, List.length_append, ih]
    simp [categoria]
    omega

/-- C3: with every response well-formed, the driver on an M-row coordinate
table issues exactly M times 5 Place Search Client calls — municipalities in
the outer loop, the fixed five categories in the inner loop — and each call
receives the municipality name, the category code, the fixed radius 2000 and
that municipality's latitude and longitude. -/
theorem C3_driver_call_trace (coords : List Muni) (token : String)
    (http : Request → Resp) (h : ∀ req, ((http req).results).isSome) :
    (get_all_data coords token http).1 =
      coords.flatMap (fun e => categoria.map
        (fun c => (⟨e.municipio, c, 2000, e.latitud, e.longitud⟩ : Call))) ∧
    (get_all_data coords token http).1.length = coords.length * 5 := by
  have hout := outer_loop_success 2000 token http h coords []
  have htr : (get_all_data coords token http).1 =
      coords.flatMap (fun e => categoria.map
        (fun c => (⟨e.municipio, c, 2000, e.latitud, e.longitud⟩ : Call))) := by
    rw [get_all_data, hout]
  refine ⟨htr, ?_⟩
  rw [htr]
  exact flatMap_categoria_length coords 2000

/-- C3 witness: one municipality row and an always-empty results oracle give
exactly the five calls in category order. -/
theorem C3_driver_call_trace_witness :
    (get_all_data [⟨"getafe", 40, 3⟩] "tok" (fun _ => ⟨some []⟩)).1 =
      ([⟨"getafe", 40, 3⟩] : List Muni).flatMap (fun e => categoria.map
        (fun c => (⟨e.municipio, c, 2000, e.latitud, e.longitud⟩ : Call))) ∧
    (get_all_data [⟨"getafe", 40, 3⟩] "tok" (fun _ => ⟨some []⟩)).1.length =
      ([⟨"getafe", 40, 3⟩] : List Muni).length * 5 :=
  C3_driver_call_trace [⟨"getafe", 40, 3⟩] "tok" (fun _ => ⟨some []⟩)
    (fun _ => rfl)

/-! Claim C9. -/

/-- C9: the driver prepends each new batch to the accumulated table, so the
final table is the concatenation of the per-pair batches in reverse
iteration order: the rows of every later (municipality, category) pair come
before the rows of every earlier pair. -/
theorem C9_prepend_reverses_batches (coords : List Muni) (token : String)
    (http : Request → Resp) (h : ∀ req, ((http req).results).isSome) :
    (get_all_data coords token http).2 =
      some ((coords.flatMap (fun e => categoria.map
        (batch_rows http token 2000 e))).reverse.flatten) := by
  rw [get_all_data, outer_loop_success 2000 token http h coords []]
  simp

/-- C9 witness: the theorem applied to one municipality and an always-empty
results oracle. -/
theorem C9_prepend_reverses_batches_witness :
    (get_all_data [⟨"getafe", 40, 3⟩] "tok" (fun _ => ⟨some []⟩)).2 =
      some ((([⟨"getafe", 40, 3⟩] : List Muni).flatMap (fun e => categoria.map
        (batch_rows (fun _ => ⟨some []⟩) "tok" 2000 e))).reverse.flatten) :=
  C9_prepend_reverses_batches [⟨"getafe", 40, 3⟩] "tok" (fun _ => ⟨some []⟩)
    (fun _ => rfl)

/-! Claim C10. -/

theorem inner_loop_calls (e : Muni) (d : Int) (tok : String)
    (http : Request → Resp) :
    ∀ (cs : List Int) (acc : List Row) (k : Call),
      k ∈ (inner_loop e d tok http cs acc).1 →
        k.distancia = d ∧ k.categorias ∈ cs := by
  intro cs
  induction cs with
  | nil =>
    intro acc k hk
    simp [inner_loop] at hk
  | cons c cs ih =>
    intro acc k hk
    cases hr : (get_data_places e.municipio c d e.latitud e.longitud tok http).2 with
    | none =>
      simp only [inner_loop, hr] at hk
      simp at hk
      subst hk
      exact ⟨rfl, by simp⟩
    | some df_temp =>
      simp only [inner_loop, hr] at hk
      rcases List.mem_cons.mp hk with h1 | h1
      · subst h1
        exact ⟨rfl, by simp⟩
      · have h2 := ih (df_temp ++ acc) k h1
        exact ⟨h2.1, by simp [h2.2]⟩

theorem outer_loop_calls (d : Int) (tok : String) (http : Request → Resp) :
    ∀ (es : List Muni) (acc : List Row) (k : Call),
      k ∈ (outer_loop d tok http es acc).1 →
        k.distancia = d ∧ k.categorias ∈ categoria := by
  intro es
  induction es with
  | nil =>
    intro acc k hk
    simp [outer_loop] at hk
  | cons e es ih =>
    intro acc k hk
    cases hr : (inner_loop e d tok http categoria acc).2 with
    | none =>
      simp only [outer_loop, hr] at hk
      exact inner_loop_calls e d tok http categoria acc k hk
    | some df2 =>
      simp only [outer_loop, hr] at hk
      rcases List.mem_append.mp hk with h1 | h1
      · exact inner_loop_calls e d tok http categoria acc k h1
      · exact ih df2 k h1

/-- C10: whatever coordinate table, token and oracle the driver is given —
it accepts no radius or category arguments — every Place Search Client call
it issues uses the fixed radius 2000 and a category code from the fixed
hard-coded five-element list. -/
theorem C10_fixed_radius_and_categories (coords : List Muni) (token : String)
    (http : Request → Resp) (k : Call)
    (hk : k ∈ (get_all_data coords token http).1) :
    k.distancia = 2000 ∧
      k.categorias ∈ ([16032, 17114, 13065, 17043, 11006] : List Int) :=
  outer_loop_calls 2000 token http coords [] k hk

/-- C10 witness: the first call issued for a one-row table has radius 2000
and a category from the fixed list. -/
theorem C10_fixed_radius_and_categories_witness :
    (⟨"getafe", 16032, 2000, 40, 3⟩ : Call).distancia = 2000 ∧
      (⟨"getafe", 16032, 2000, 40, 3⟩ : Call).categorias ∈
        ([16032, 17114, 13065, 17043, 11006] : List Int) :=
  C10_fixed_radius_and_categories [⟨"getafe", 40, 3⟩] "tok"
    (fun _ => ⟨some []⟩) ⟨"getafe", 16032, 2000, 40, 3⟩ (by decide)
